import Mathlib

/-!
Verification of the snapshot/observation engine of lmdb-viewer.

The model is a shallow embedding of `src/database.rs`, `src/database_item.rs`
and the relevant handlers of `src/window.rs`.  Byte sequences (`glib::Bytes`,
LMDB keys and values) are modelled as `List Nat`; sub-table names, which the
code passes around as UTF-8 strings, are modelled as their UTF-8 byte
sequences.  The LMDB environment is modelled by the observable behaviour the
code depends on: whether `read_txn` succeeds, and, for each sub-table, the
sequence of records (or errors) its cursor yields.
-/

namespace LmdbViewer

/-- `DatabaseItem` from `src/database_item.rs`: an immutable key/value pair of
byte sequences, both set at construction (`construct_only`). -/
structure DatabaseItem where
  key : List Nat
  data : List Nat
deriving DecidableEq, Repr

/-- A change notification as passed to `gio::ListModel::items_changed
(position, removed, added)`. -/
structure Notification where
  position : Nat
  removed : Nat
  added : Nat
deriving DecidableEq, Repr

/-- What one sub-table's cursor yields under a read transaction: either the
`iter` call itself fails, or it produces a sequence of records each of which
is a key/value pair or a per-record cursor error (`src/database.rs` lines
64-73 and 92-103 consume exactly this shape). -/
def TableData : Type := Except String (List (Except String (List Nat × List Nat)))

instance exceptDecEq {ε α : Type} [DecidableEq ε] [DecidableEq α] :
    DecidableEq (Except ε α) := fun x y =>
  match x, y with
  | Except.error a, Except.error b =>
    if h : a = b then isTrue (by rw [h])
    else isFalse (by intro he; cases he; exact h rfl)
  | Except.error _, Except.ok _ => isFalse (fun he => Except.noConfusion he)
  | Except.ok _, Except.error _ => isFalse (fun he => Except.noConfusion he)
  | Except.ok a, Except.ok b =>
    if h : a = b then isTrue (by rw [h])
    else isFalse (by intro he; cases he; exact h rfl)

instance : DecidableEq TableData := by
  unfold TableData
  infer_instance

/-- The observable state of a `heed::Env` handle: whether `read_txn()`
succeeds, and the association of sub-table names (`none` is the unnamed root
table) to their cursor data.  External writers may mutate the store, which is
modelled by supplying a different `Env` value (or fresh cursor data) at the
next operation. -/
structure Env where
  txnOk : Bool
  tables : List (Option (List Nat) × TableData)
deriving DecidableEq

/-- `env.open_database(&rtxn, name)` (`src/database.rs` line 61-62): look the
sub-table up by name; `none` models heed returning `Ok(None)` (no such
sub-table). -/
def openDatabase (env : Env) (name : Option (List Nat)) : Option TableData :=
  (env.tables.find? (fun t => t.fst = name)).map Prod.snd

/-- The `Database` GObject of `src/database.rs`: the environment handle, the
sub-table identity, and the current snapshot held in an `IndexMap` keyed by
the entry key (modelled as an ordered association list). -/
structure Database where
  env : Env
  name : Option (List Nat)
  items : List (List Nat × DatabaseItem)
deriving DecidableEq

/-- `IndexMap::insert` semantics: if the key is present, the value is
replaced in place (keeping the original position); otherwise the pair is
appended at the end. -/
def imInsert (m : List (List Nat × DatabaseItem)) (k : List Nat)
    (v : DatabaseItem) : List (List Nat × DatabaseItem) :=
  if m.any (fun p => p.fst = k) then
    m.map (fun p => if p.fst = k then (p.fst, v) else p)
  else m ++ [(k, v)]

/-- The record-collection loop shared by `load` and `reload`
(`.map(|item| ...).collect::<Result<IndexMap<_, _>, _>>()`): records are
inserted left to right, and the first cursor error aborts the whole
collection. -/
def collectGo (acc : List (List Nat × DatabaseItem)) :
    List (Except String (List Nat × List Nat)) →
    Except String (List (List Nat × DatabaseItem))
  | [] => Except.ok acc
  | Except.error e :: _ => Except.error e
  | Except.ok (k, v) :: rest => collectGo (imInsert acc k (DatabaseItem.mk k v)) rest

/-- Materialise a cursor's records into the `IndexMap` of items. -/
def collectRows (rows : List (Except String (List Nat × List Nat))) :
    Except String (List (List Nat × DatabaseItem)) :=
  collectGo [] rows

/-- `Database::load` (`src/database.rs` lines 57-82): begin a read
transaction, open the sub-table (`database not found` when absent),
iterate its cursor and collect the records; any failure aborts the load with
an error and no `Database` value is produced. -/
def load (env : Env) (name : Option (List Nat)) : Except String Database :=
  if env.txnOk then
    match openDatabase env name with
    | none => Except.error "database not found"
    | some tdata =>
      match tdata with
      | Except.error e => Except.error e
      | Except.ok rows =>
        match collectRows rows with
        | Except.error e => Except.error e
        | Except.ok items => Except.ok (Database.mk env name items)
  else Except.error "Failed to create read txn"

/-- `ListModelImpl::n_items` (`src/database.rs` line 37-39): the item count
as a `u32`, i.e. `items.len() as u32` which truncates modulo `2^32`. -/
def nItems (db : Database) : Nat :=
  db.items.length % 4294967296

/-- `ListModelImpl::item` (`src/database.rs` lines 41-47):
`items.get_index(position as usize)` returns the item at the position, or
`None` out of range. -/
def itemAt (db : Database) (position : Nat) : Option DatabaseItem :=
  (db.items.get? position).map Prod.snd

/-- `Database::reload` (`src/database.rs` lines 84-119).  `txnOk` models the
outcome of the fresh `env.read_txn()` and `iterRes` models what the held
sub-table handle's cursor yields under that transaction (the store may have
been mutated externally since the load).  Returns the updated `Database`
state, the list of emitted `items_changed` notifications, and the `Result`
returned to the caller.  On success the snapshot is replaced first, then a
single notification is emitted whose shape depends only on the compared
lengths (`new_len.cmp(&prev_len)`). -/
def reload (db : Database) (txnOk : Bool) (iterRes : TableData) :
    Database × List Notification × Except String Unit :=
  if txnOk then
    match iterRes with
    | Except.error _ => (db, [], Except.error "Failed to iter db")
    | Except.ok rows =>
      match collectRows rows with
      | Except.error _ => (db, [], Except.error "Failed to collect db")
      | Except.ok items =>
        let prevLen := nItems db
        let db' := Database.mk db.env db.name items
        let newLen := nItems db'
        let note :=
          if newLen < prevLen then Notification.mk 0 newLen prevLen
          else if newLen = prevLen then Notification.mk 0 prevLen prevLen
          else Notification.mk 0 prevLen newLen
        (db', [note], Except.ok ())
  else (db, [], Except.error "Failed to create read txn")

/-- Byte-lexicographic strict order on byte sequences (LMDB's native key
comparison for `ByteSlice`-typed keys). -/
def bytesLt : List Nat → List Nat → Bool
  | [], [] => false
  | [], _ :: _ => true
  | _ :: _, [] => false
  | a :: as, b :: bs =>
    if a < b then true
    else if b < a then false
    else bytesLt as bs

/-- Modelled from the spec, section 4.3.1 step 1: the longest common
entry-wise prefix length of two snapshots. -/
def commonPrefixLen : List DatabaseItem → List DatabaseItem → Nat
  | a :: as, b :: bs => if a = b then commonPrefixLen as bs + 1 else 0
  | _, _ => 0

/-- Modelled from the spec, section 4.3.1: the prefix/suffix diff the spec
defines as the target change notification: position `p`, removed
`m - s - p`, added `n - s - p`, where `p` is the longest common prefix
length and `s` the longest common suffix length of the remainders. -/
def specDiff (o n : List DatabaseItem) : Notification :=
  let p := commonPrefixLen o n
  let s := commonPrefixLen (List.reverse (o.drop p)) (List.reverse (n.drop p))
  Notification.mk p (o.length - s - p) (n.length - s - p)

/-- A UTF-8 continuation byte (`0x80..=0xBF`). -/
def isCont (b : Nat) : Bool := 128 ≤ b && b < 192

/-- Lower bound of the valid second byte for a 3- or 4-byte UTF-8 leader `b`
(RFC 3629 table, as enforced by Rust's `str::from_utf8`). -/
def b2lo (b : Nat) : Nat :=
  if b = 224 then 160 else if b = 240 then 144 else 128

/-- Upper bound of the valid second byte for a 3- or 4-byte UTF-8 leader `b`. -/
def b2hi (b : Nat) : Nat :=
  if b = 237 then 159 else if b = 244 then 143 else 191

/-- Rust's `std::str::from_utf8` validity check: strict UTF-8 (no overlongs,
no surrogates, maximum U+10FFFF). -/
def utf8Valid : List Nat → Bool
  | [] => true
  | b :: rest =>
    if b < 128 then utf8Valid rest
    else if 194 ≤ b ∧ b ≤ 223 then
      match rest with
      | b2 :: rest2 => isCont b2 && utf8Valid rest2
      | [] => false
    else if 224 ≤ b ∧ b ≤ 239 then
      match rest with
      | b2 :: b3 :: rest3 =>
        decide (b2lo b ≤ b2 ∧ b2 ≤ b2hi b) && isCont b3 && utf8Valid rest3
      | _ => false
    else if 240 ≤ b ∧ b ≤ 244 then
      match rest with
      | b2 :: b3 :: b4 :: rest4 =>
        decide (b2lo b ≤ b2 ∧ b2 ≤ b2hi b) && isCont b3 && isCont b4 && utf8Valid rest4
      | _ => false
    else false

/-- Rust's `String::from_utf8_lossy`, producing the sequence of decoded code
points: each maximal subpart of an ill-formed sequence is replaced by one
U+FFFD (65533). -/
def utf8LossyDecode : List Nat → List Nat
  | [] => []
  | b :: rest =>
    if b < 128 then b :: utf8LossyDecode rest
    else if 194 ≤ b ∧ b ≤ 223 then
      match rest with
      | b2 :: rest2 =>
        if isCont b2 then ((b - 192) * 64 + (b2 - 128)) :: utf8LossyDecode rest2
        else 65533 :: utf8LossyDecode (b2 :: rest2)
      | [] => [65533]
    else if 224 ≤ b ∧ b ≤ 239 then
      match rest with
      | b2 :: rest2 =>
        if b2lo b ≤ b2 ∧ b2 ≤ b2hi b then
          match rest2 with
          | b3 :: rest3 =>
            if isCont b3 then
              ((b - 224) * 4096 + (b2 - 128) * 64 + (b3 - 128)) :: utf8LossyDecode rest3
            else 65533 :: utf8LossyDecode (b3 :: rest3)
          | [] => [65533]
        else 65533 :: utf8LossyDecode (b2 :: rest2)
      | [] => [65533]
    else if 240 ≤ b ∧ b ≤ 244 then
      match rest with
      | b2 :: rest2 =>
        if b2lo b ≤ b2 ∧ b2 ≤ b2hi b then
          match rest2 with
          | b3 :: rest3 =>
            if isCont b3 then
              match rest3 with
              | b4 :: rest4 =>
                if isCont b4 then
                  ((b - 240) * 262144 + (b2 - 128) * 4096 + (b3 - 128) * 64 + (b4 - 128))
                    :: utf8LossyDecode rest4
                else 65533 :: utf8LossyDecode (b4 :: rest4)
              | [] => [65533]
            else 65533 :: utf8LossyDecode (b3 :: rest3)
          | [] => [65533]
        else 65533 :: utf8LossyDecode (b2 :: rest2)
      | [] => [65533]
    else 65533 :: utf8LossyDecode rest
termination_by l => l.length
decreasing_by all_goals (simp_wf <;> omega)

/-- Rust's `str::replace(from_char, to)`: every occurrence of the code point
`c` is replaced by the code-point sequence `r`. -/
def rustReplaceChar (s : List Nat) (c : Nat) (r : List Nat) : List Nat :=
  match s with
  | [] => []
  | x :: xs => (if x = c then r else [x]) ++ rustReplaceChar xs c r

/-- The key cell text set by the key column factory
(`src/window.rs` line 207):
`String::from_utf8_lossy(item.key().as_ref()).replace('\x00', "0")`. -/
def keyCellText (item : DatabaseItem) : List Nat :=
  rustReplaceChar (utf8LossyDecode item.key) 0 [48]

/-- The value cell text set by the value column factory
(`src/window.rs` line 227): same rendering applied to `item.data()`. -/
def dataCellText (item : DatabaseItem) : List Nat :=
  rustReplaceChar (utf8LossyDecode item.data) 0 [48]

/-- Modelled from the spec, section 6 display formatting boundary: bytes are
lossily decoded as UTF-8 and every embedded NUL (decoded code point 0) is
substituted with the printable character `0` (code point 48). -/
def specLossyNulRender (b : List Nat) : List Nat :=
  (utf8LossyDecode b).map (fun c => if c = 0 then 48 else c)

/-- The observable outcome of the drop-down selection handler. -/
inductive SelectionOutcome where
  | modelSet (db : Database)
  | modelCleared
  | panicked (msg : String)
  | noEnv
deriving DecidableEq

/-- The `connect_selected_item_notify` handler of `src/window.rs` lines
246-266: with an environment set and an item selected, the registry key is
decoded with `std::str::from_utf8(&item_key).unwrap()` — a panic when the
key is not valid UTF-8 — and the sub-table is opened with
`Database::load(env, Some(db_name)).unwrap()` — a panic when the load
fails. -/
def onSelectedItemNotify (envOpt : Option Env) (selected : Option DatabaseItem) :
    SelectionOutcome :=
  match envOpt with
  | none => SelectionOutcome.noEnv
  | some env =>
    match selected with
    | none => SelectionOutcome.modelCleared
    | some item =>
      if utf8Valid item.key then
        match load env (some item.key) with
        | Except.ok db => SelectionOutcome.modelSet db
        | Except.error e => SelectionOutcome.panicked e
      else
        SelectionOutcome.panicked "called Result::unwrap on an Err value: Utf8Error"

/-! Helper lemmas. -/

theorem bytesLt_irrefl (a : List Nat) : bytesLt a a = false := by
  induction a with
  | nil => rfl
  | cons x xs ih => simp [bytesLt, ih]

theorem imInsert_fresh (acc : List (List Nat × DatabaseItem)) (k : List Nat)
    (v : DatabaseItem) (h : acc.any (fun p => p.fst = k) = false) :
    imInsert acc k v = acc ++ [(k, v)] := by
  simp only [imInsert, h]
  simp

theorem collectGo_mem_error (rows : List (Except String (List Nat × List Nat))) :
    ∀ (acc : List (List Nat × DatabaseItem)) (e : String),
    Except.error e ∈ rows → ∃ e2, collectGo acc rows = Except.error e2 := by
  induction rows with
  | nil => intro acc e hmem; cases hmem
  | cons r rest ih =>
    intro acc e hmem
    cases r with
    | error e2 => exact ⟨e2, rfl⟩
    | ok kv =>
      obtain ⟨k, v⟩ := kv
      cases hmem with
      | tail _ hmem2 => exact ih (imInsert acc k (DatabaseItem.mk k v)) e hmem2

theorem collectGo_all_ok (oks : List (List Nat × List Nat)) :
    ∀ acc : List (List Nat × DatabaseItem),
    (oks.map Prod.fst).Nodup →
    (∀ p ∈ oks, acc.any (fun q => q.fst = p.fst) = false) →
    collectGo acc (oks.map Except.ok)
      = Except.ok (acc ++ oks.map (fun p => (p.fst, DatabaseItem.mk p.fst p.snd))) := by
  induction oks with
  | nil => intro acc _ _; simp [collectGo]
  | cons p rest ih =>
    intro acc hnd hfresh
    obtain ⟨k, v⟩ := p
    rw [List.map_cons, List.nodup_cons] at hnd
    show collectGo (imInsert acc k (DatabaseItem.mk k v)) (rest.map Except.ok) = _
    rw [imInsert_fresh acc k (DatabaseItem.mk k v) (hfresh (k, v) (List.mem_cons_self _ _))]
    rw [ih (acc ++ [(k, DatabaseItem.mk k v)]) hnd.2 ?fresh]
    · simp
    case fresh =>
      intro q hq
      have hacc : acc.any (fun r => r.fst = q.fst) = false :=
        hfresh q (List.mem_cons_of_mem _ hq)
      have hkq : ¬ (k = q.fst) := by
        intro heq
        have hmem : q.fst ∈ rest.map Prod.fst := List.mem_map_of_mem Prod.fst hq
        rw [← heq] at hmem
        exact hnd.1 hmem
      simp [List.any_append, hacc, hkq]

theorem rustReplaceChar_singleton (s : List Nat) :
    rustReplaceChar s 0 [48] = s.map (fun c => if c = 0 then 48 else c) := by
  induction s with
  | nil => rfl
  | cons x xs ih =>
    by_cases hx : x = 0 <;> simp [rustReplaceChar, hx, ih]

theorem nItems_mk (e : Env) (nm : Option (List Nat)) (l : List (List Nat × DatabaseItem)) :
    nItems (Database.mk e nm l) = l.length % 4294967296 := rfl

theorem itemAt_mk (e : Env) (nm : Option (List Nat)) (l : List (List Nat × DatabaseItem))
    (n : Nat) : itemAt (Database.mk e nm l) n = (l.get? n).map Prod.snd := rfl

/-! Claim theorems. -/

/-- Claim C1: the spec requires the reload notification to be the
prefix/suffix diff `(p, m - s - p, n - s - p)`, which for old snapshot
`["a","b"]` and new snapshot `["a","b","c"]` is `(2, 0, 1)` (as `specDiff`
computes); but `Database::reload` compares only lengths and emits
`items_changed(0, 2, 3)` on this input. -/
theorem reload_append_emits_length_only_diff :
    (reload
        (Database.mk (Env.mk true []) none
          [([97], DatabaseItem.mk [97] []), ([98], DatabaseItem.mk [98] [])])
        true
        (Except.ok [Except.ok ([97], []), Except.ok ([98], []), Except.ok ([99], [])])).2.1
      = [Notification.mk 0 2 3]
    ∧ specDiff [DatabaseItem.mk [97] [], DatabaseItem.mk [98] []]
        [DatabaseItem.mk [97] [], DatabaseItem.mk [98] [], DatabaseItem.mk [99] []]
      = Notification.mk 2 0 1
    ∧ Notification.mk 0 2 3 ≠ Notification.mk 2 0 1 := by
  decide

/-- Claim C2: reloading a snapshot identical to the held one (here the
one-entry snapshot `[("a", "2")]`) re-collects exactly the same items, yet
the code emits `items_changed(0, 1, 1)` — a notification with non-zero
`removed` and `added` — where the spec requires none. -/
theorem reload_identical_emits_nonzero :
    collectRows [Except.ok ([97], [50])]
      = Except.ok [([97], DatabaseItem.mk [97] [50])]
    ∧ (reload
        (Database.mk (Env.mk true []) none [([97], DatabaseItem.mk [97] [50])])
        true
        (Except.ok [Except.ok ([97], [50])])).2.1
      = [Notification.mk 0 1 1]
    ∧ (Notification.mk 0 1 1).removed ≠ 0 := by
  decide

/-- Claim C4: when the named sub-table does not exist in the store
(`open_database` yields no table) and the read transaction itself succeeds,
`load` returns the `database not found` error instead of a snapshot. -/
theorem load_missing_table_error (env : Env) (nm : List Nat)
    (htxn : env.txnOk = true)
    (h : openDatabase env (some nm) = none) :
    load env (some nm) = Except.error "database not found" := by
  simp [load, htxn, h]

/-- Claim C4 witness: a store holding only the unnamed root table makes
`load` of sub-table `"x"` fail with `database not found`. -/
theorem load_missing_table_error_witness :
    load (Env.mk true [(none, Except.ok [])]) (some [120])
      = Except.error "database not found" :=
  load_missing_table_error (Env.mk true [(none, Except.ok [])]) [120] rfl (by decide)

/-- Claim C7: the drop-down selection handler decodes the registry key with
`std::str::from_utf8(..).unwrap()`; for the non-UTF-8 key `[0xFF]` this
panics instead of surfacing a `NotFoundError`-class error. -/
theorem selection_non_utf8_key_panics :
    utf8Valid [255] = false
    ∧ onSelectedItemNotify (some (Env.mk true [(none, Except.ok [])]))
        (some (DatabaseItem.mk [255] []))
      = SelectionOutcome.panicked "called Result::unwrap on an Err value: Utf8Error" := by
  decide

/-- Claim C3: whenever `reload` returns an error (failed transaction, failed
cursor iteration or a failed record), the held snapshot is unchanged — the
state, `n_items` and every per-index `item` read are exactly the pre-reload
ones — and no `items_changed` notification is emitted. -/
theorem reload_failure_isolation (db : Database) (txnOk : Bool) (iterRes : TableData)
    (h : ∃ e, (reload db txnOk iterRes).2.2 = Except.error e) :
    (reload db txnOk iterRes).1 = db
    ∧ (reload db txnOk iterRes).2.1 = []
    ∧ nItems (reload db txnOk iterRes).1 = nItems db
    ∧ ∀ pos, itemAt (reload db txnOk iterRes).1 pos = itemAt db pos := by
  obtain ⟨e, he⟩ := h
  cases txnOk with
  | false => exact ⟨rfl, rfl, rfl, fun _ => rfl⟩
  | true =>
    cases iterRes with
    | error e2 => exact ⟨rfl, rfl, rfl, fun _ => rfl⟩
    | ok rows =>
      cases hc : collectRows rows with
      | error e2 =>
        simp only [reload, hc]
        exact ⟨rfl, rfl, rfl, fun _ => rfl⟩
      | ok items =>
        exfalso
        simp [reload, hc] at he

/-- Claim C3 witness: a reload whose read transaction fails leaves the
one-entry snapshot untouched and emits nothing. -/
theorem reload_failure_isolation_witness :
    (reload (Database.mk (Env.mk true []) none [([97], DatabaseItem.mk [97] [])])
        false (Except.ok [])).1
      = Database.mk (Env.mk true []) none [([97], DatabaseItem.mk [97] [])]
    ∧ (reload (Database.mk (Env.mk true []) none [([97], DatabaseItem.mk [97] [])])
        false (Except.ok [])).2.1 = []
    ∧ itemAt (reload (Database.mk (Env.mk true []) none
        [([97], DatabaseItem.mk [97] [])]) false (Except.ok [])).1 0
      = itemAt (Database.mk (Env.mk true []) none [([97], DatabaseItem.mk [97] [])]) 0 := by
  have h := reload_failure_isolation
    (Database.mk (Env.mk true []) none [([97], DatabaseItem.mk [97] [])])
    false (Except.ok []) ⟨"Failed to create read txn", rfl⟩
  exact ⟨h.1, h.2.1, h.2.2.2 0⟩

/-- Claim C5: if the cursor yields an error at any record, the whole `load`
aborts — no snapshot value is ever returned. -/
theorem load_cursor_error_aborts (env : Env) (name : Option (List Nat))
    (rows : List (Except String (List Nat × List Nat))) (e : String)
    (henv : openDatabase env name = some (Except.ok rows))
    (hmem : Except.error e ∈ rows) :
    ∀ db : Database, load env name ≠ Except.ok db := by
  intro db hok
  cases htxn : env.txnOk with
  | false => simp [load, htxn] at hok
  | true =>
    obtain ⟨e2, hc⟩ := collectGo_mem_error rows [] e hmem
    simp [load, htxn, henv, collectRows, hc] at hok

/-- Claim C5 witness: a root table whose cursor fails at the second record
never loads to a snapshot (here: not even to the snapshot holding the one
good record). -/
theorem load_cursor_error_aborts_witness :
    load (Env.mk true [(none, Except.ok [Except.ok ([97], [49]), Except.error "boom"])]) none
      ≠ Except.ok (Database.mk
          (Env.mk true [(none, Except.ok [Except.ok ([97], [49]), Except.error "boom"])])
          none [([97], DatabaseItem.mk [97] [49])]) :=
  load_cursor_error_aborts
    (Env.mk true [(none, Except.ok [Except.ok ([97], [49]), Except.error "boom"])]) none
    [Except.ok ([97], [49]), Except.error "boom"] "boom" (by decide) (by decide) _

/-- Claim C6: when the cursor yields records whose keys are strictly
ascending in byte-lexicographic order (LMDB's native iteration order), every
snapshot produced by `load` and by `reload` has strictly ascending,
duplicate-free keys; the read accessors do not mutate the snapshot, so the
invariant is preserved by every operation. -/
theorem snapshot_keys_sorted_unique (oks : List (List Nat × List Nat))
    (hs : List.Pairwise (fun p q => bytesLt p.fst q.fst = true) oks) :
    (∀ (env : Env) (name : Option (List Nat)) (db : Database),
       openDatabase env name = some (Except.ok (oks.map Except.ok)) →
       load env name = Except.ok db →
       List.Pairwise (fun a b => bytesLt a b = true) (db.items.map Prod.fst)
       ∧ (db.items.map Prod.fst).Nodup)
    ∧ (∀ db0 : Database,
       List.Pairwise (fun a b => bytesLt a b = true)
         ((reload db0 true (Except.ok (oks.map Except.ok))).1.items.map Prod.fst)
       ∧ ((reload db0 true (Except.ok (oks.map Except.ok))).1.items.map Prod.fst).Nodup) := by
  have hne : ∀ a b : List Nat, bytesLt a b = true → a ≠ b := by
    intro a b hlt heq
    rw [heq, bytesLt_irrefl] at hlt
    exact Bool.false_ne_true hlt
  have hnd : (oks.map Prod.fst).Nodup :=
    List.pairwise_map.mpr (hs.imp (fun h => hne _ _ h))
  have hcol : collectRows (oks.map Except.ok)
      = Except.ok (oks.map (fun p => (p.fst, DatabaseItem.mk p.fst p.snd))) :=
    collectGo_all_ok oks [] hnd (fun _ _ => rfl)
  have hkeys : (oks.map (fun p => (p.fst, DatabaseItem.mk p.fst p.snd))).map Prod.fst
      = oks.map Prod.fst := by
    rw [List.map_map]
    rfl
  have hsorted : List.Pairwise (fun a b => bytesLt a b = true) (oks.map Prod.fst) :=
    List.pairwise_map.mpr hs
  constructor
  · intro env name db henv hload
    have hdb : db = Database.mk env name
        (oks.map (fun p => (p.fst, DatabaseItem.mk p.fst p.snd))) := by
      cases htxn : env.txnOk with
      | false => simp [load, htxn] at hload
      | true =>
        simp [load, htxn, henv, hcol] at hload
        exact hload.symm
    have hitems : db.items = oks.map (fun p => (p.fst, DatabaseItem.mk p.fst p.snd)) := by
      rw [hdb]
    rw [hitems, hkeys]
    exact ⟨hsorted, hnd⟩
  · intro db0
    have hitems : (reload db0 true (Except.ok (oks.map Except.ok))).1.items
        = oks.map (fun p => (p.fst, DatabaseItem.mk p.fst p.snd)) := by
      simp [reload, hcol]
    rw [hitems, hkeys]
    exact ⟨hsorted, hnd⟩

/-- Claim C6 witness: the two-record cursor `[("a","1"), ("b","2")]` loads
and reloads to snapshots with duplicate-free keys. -/
theorem snapshot_keys_sorted_unique_witness :
    ((Database.mk (Env.mk true [(none, Except.ok [Except.ok ([97], [49]), Except.ok ([98], [50])])])
        none [([97], DatabaseItem.mk [97] [49]), ([98], DatabaseItem.mk [98] [50])]).items.map
          Prod.fst).Nodup
    ∧ ((reload (Database.mk (Env.mk true []) none []) true
          (Except.ok [Except.ok ([97], [49]), Except.ok ([98], [50])])).1.items.map
            Prod.fst).Nodup := by
  have h := snapshot_keys_sorted_unique [([97], [49]), ([98], [50])] (by decide)
  exact ⟨(h.1 (Env.mk true [(none, Except.ok [Except.ok ([97], [49]), Except.ok ([98], [50])])])
      none (Database.mk
        (Env.mk true [(none, Except.ok [Except.ok ([97], [49]), Except.ok ([98], [50])])])
        none [([97], DatabaseItem.mk [97] [49]), ([98], DatabaseItem.mk [98] [50])])
      (by decide) (by decide)).2,
    (h.2 (Database.mk (Env.mk true []) none [])).2⟩

/-- Claim C8: `load` is a deterministic function of the observable store
state and its arguments: two environments agreeing on transaction outcome
and on the selected table's cursor data produce byte-identical, identically
ordered entry sequences. -/
theorem load_deterministic (env1 env2 : Env) (name : Option (List Nat))
    (htxn : env1.txnOk = env2.txnOk)
    (hdb : openDatabase env1 name = openDatabase env2 name) :
    (load env1 name).map Database.items = (load env2 name).map Database.items := by
  simp only [load]
  rw [htxn, hdb]
  cases htxn2 : env2.txnOk with
  | false => simp
  | true =>
    simp only [if_true]
    cases hopen : openDatabase env2 name with
    | none => simp
    | some td =>
      cases td with
      | error e => simp
      | ok rows =>
        cases hc : collectRows rows with
        | error e => simp [hc]
        | ok items => simp [hc, Except.map]

/-- Claim C8 witness: two stores with the same root-table cursor data (one
holding an extra unrelated sub-table) load to the same entry sequence. -/
theorem load_deterministic_witness :
    (load (Env.mk true [(none, Except.ok [Except.ok ([97], [49])])]) none).map Database.items
      = (load (Env.mk true [(none, Except.ok [Except.ok ([97], [49])]),
          (some [120], Except.ok [])]) none).map Database.items :=
  load_deterministic (Env.mk true [(none, Except.ok [Except.ok ([97], [49])])])
    (Env.mk true [(none, Except.ok [Except.ok ([97], [49])]), (some [120], Except.ok [])])
    none rfl (by decide)

/-- Claim C9: both column factories render an entry's bytes by lossily
decoding them as UTF-8 and substituting every decoded NUL with the printable
character `0`, matching the spec's display-formatting rule; the rendering is
a pure function of the entry, whose key and data bytes it leaves unchanged
(a `DatabaseItem` is exactly its two construct-only byte fields). -/
theorem cell_text_matches_spec_render (item : DatabaseItem) :
    keyCellText item = specLossyNulRender item.key
    ∧ dataCellText item = specLossyNulRender item.data
    ∧ DatabaseItem.mk item.key item.data = item := by
  refine ⟨?_, ?_, ?_⟩
  · simp only [keyCellText, specLossyNulRender]
    exact rustReplaceChar_singleton _
  · simp only [dataCellText, specLossyNulRender]
    exact rustReplaceChar_singleton _
  · cases item
    rfl

/-- Claim C10 counterexample: with `2^32` items the `items.len() as u32` in
`n_items` truncates to `0`, so position `0` satisfies `position ≥ len()` and
yet `item` returns `Some` — the claim as stated fails for such states. -/
theorem item_accessor_truncation_cex :
    nItems (Database.mk (Env.mk true []) none
        ((List.range 4294967296).map (fun i => ([i], DatabaseItem.mk [i] [])))) = 0
    ∧ itemAt (Database.mk (Env.mk true []) none
        ((List.range 4294967296).map (fun i => ([i], DatabaseItem.mk [i] [])))) 0
      = some (DatabaseItem.mk [0] []) := by
  constructor
  · rw [nItems_mk, List.length_map, List.length_range, Nat.mod_self]
  · have h0 : (List.range 4294967296).get? 0 = some 0 := List.get?_range (by norm_num)
    rw [itemAt_mk, List.get?_map, h0]
    rfl

/-- Claim C10 amended: for every state holding fewer than `2^32` items (so
that the `u32` item count does not truncate), the item accessor is total:
it returns `Some` exactly below `n_items` and `None` at or above it. -/
theorem item_accessor_total_amended (db : Database) (pos : Nat)
    (hlen : db.items.length < 4294967296) :
    (pos < nItems db → (itemAt db pos).isSome = true)
    ∧ (nItems db ≤ pos → itemAt db pos = none) := by
  have hn : nItems db = db.items.length := Nat.mod_eq_of_lt hlen
  constructor
  · intro h
    rw [hn] at h
    simp only [itemAt]
    rw [List.get?_eq_get h]
    rfl
  · intro h
    rw [hn] at h
    simp only [itemAt]
    rw [List.get?_eq_none.mpr h]
    rfl

/-- Claim C10 amended witness: in a two-entry snapshot, position 1 yields an
item and position 5 yields `None`. -/
theorem item_accessor_total_amended_witness :
    (itemAt (Database.mk (Env.mk true []) none
        [([97], DatabaseItem.mk [97] []), ([98], DatabaseItem.mk [98] [])]) 1).isSome = true
    ∧ itemAt (Database.mk (Env.mk true []) none
        [([97], DatabaseItem.mk [97] []), ([98], DatabaseItem.mk [98] [])]) 5 = none := by
  constructor
  · exact (item_accessor_total_amended (Database.mk (Env.mk true []) none
      [([97], DatabaseItem.mk [97] []), ([98], DatabaseItem.mk [98] [])]) 1
      (by decide)).1 (by decide)
  · exact (item_accessor_total_amended (Database.mk (Env.mk true []) none
      [([97], DatabaseItem.mk [97] []), ([98], DatabaseItem.mk [98] [])]) 5
      (by decide)).2 (by decide)

end LmdbViewer
